import Mathlib

/-!
Verification of the psx-lab OoT PS1 renderer core: shallow embedding of the
skeleton animator (`src/oot/skeleton.cpp`), the SKM skeletal-mesh accessors
(`skm.h`), the VRAM atlas allocator (`src/oot/vram_alloc.h`) and the triangle
emission pipeline (`src/oot/main.cpp`, `room.cpp`), together with theorems
about the properties the specification states for them.

Machine integers are modelled as `Int`/`Nat` with explicit wrapping where the
source relies on it.  C++ `>>` on a signed 32-bit value is an arithmetic right
shift, i.e. floor division by a power of two.
-/

/-- Arithmetic right shift by 12 of a signed value, as C++ `x >> 12` on
`int32_t`: floor division by 4096. -/
def sar12 (x : Int) : Int := Int.fdiv x 4096

/-- Wrap an integer to a signed 16-bit value, as a C++ `static_cast<int16_t>`
of a 16-bit-or-wider value. -/
def i16 (x : Int) : Int := (x + 32768) % 65536 - 32768

-- ── Fixed-point 3×3 matrices (psyqo::Matrix33, raw 4.12 entries) ─────────

/-- 3×3 rotation matrix of raw 4.12 fixed-point entries (`psyqo::Matrix33`,
each entry is the `.raw()` value of a `FixedPoint<12>`). -/
structure M33 where
  m00 : Int
  m01 : Int
  m02 : Int
  m10 : Int
  m11 : Int
  m12 : Int
  m20 : Int
  m21 : Int
  m22 : Int
deriving DecidableEq

/-- Modelled from the spec: `psyqo::SoftMath::multiplyMatrix33` is third-party
library code not present under `src/`; §4.1 specifies it as a 3×3 matrix
product using 32-bit accumulation with a fixed truncating right shift to
rescale the 12-fractional-bit entries. -/
def mulM (a b : M33) : M33 where
  m00 := sar12 (a.m00 * b.m00 + a.m01 * b.m10 + a.m02 * b.m20)
  m01 := sar12 (a.m00 * b.m01 + a.m01 * b.m11 + a.m02 * b.m21)
  m02 := sar12 (a.m00 * b.m02 + a.m01 * b.m12 + a.m02 * b.m22)
  m10 := sar12 (a.m10 * b.m00 + a.m11 * b.m10 + a.m12 * b.m20)
  m11 := sar12 (a.m10 * b.m01 + a.m11 * b.m11 + a.m12 * b.m21)
  m12 := sar12 (a.m10 * b.m02 + a.m11 * b.m12 + a.m12 * b.m22)
  m20 := sar12 (a.m20 * b.m00 + a.m21 * b.m10 + a.m22 * b.m20)
  m21 := sar12 (a.m20 * b.m01 + a.m21 * b.m11 + a.m22 * b.m21)
  m22 := sar12 (a.m20 * b.m02 + a.m21 * b.m12 + a.m22 * b.m22)

-- ── Skeleton data model (skm.h, skeleton.cpp) ────────────────────────────

/-- `SKM::LimbDesc`: joint offset from the parent joint plus child/sibling
tree links (`0xFF` = none) and mesh sizes (`skm.h`). -/
structure LimbDesc where
  joint_x : Int
  joint_y : Int
  joint_z : Int
  child : Nat
  sibling : Nat
  num_verts : Nat
  num_tris : Nat
deriving DecidableEq

instance : Inhabited LimbDesc := ⟨⟨0, 0, 0, 255, 255, 0, 0⟩⟩

/-- `BoneState` (scene.h): per-limb world rotation matrix and translation. -/
structure BoneState where
  rot : M33
  tx : Int
  ty : Int
  tz : Int
deriving DecidableEq

/-- The pose computed for a limb from its parent's pose
(`RoomScene::computeBoneRecurse`, skeleton.cpp lines 70-81): world rotation =
parent rotation × the limb's keyframe rotation; world translation = parent
translation + parent rotation applied to the limb's joint offset with an
arithmetic right shift by 12.  `rotOf i` is the limb's keyframe rotation
matrix (`eulerZYX` of the frame's Euler triple for limb `i`). -/
def bonePoseOf (limbs : List LimbDesc) (rotOf : Nat → M33)
    (parent : BoneState) (i : Nat) : BoneState :=
  let limb := limbs.getD i default
  { rot := mulM parent.rot (rotOf i)
    tx := parent.tx + sar12 (parent.rot.m00 * limb.joint_x +
            parent.rot.m01 * limb.joint_y + parent.rot.m02 * limb.joint_z)
    ty := parent.ty + sar12 (parent.rot.m10 * limb.joint_x +
            parent.rot.m11 * limb.joint_y + parent.rot.m12 * limb.joint_z)
    tz := parent.tz + sar12 (parent.rot.m20 * limb.joint_x +
            parent.rot.m21 * limb.joint_y + parent.rot.m22 * limb.joint_z) }

/-- `RoomScene::computeBoneRecurse` (skeleton.cpp lines 62-87): store this
limb's pose into the bone array, recurse into the child passing the limb's
just-computed pose, then recurse into the sibling passing the unchanged
parent pose.  `fuel` bounds the recursion depth (the C++ recursion terminates
only on well-formed trees; on such trees any `fuel` at least the node count
is enough). -/
def computeBoneRecurse (limbs : List LimbDesc) (rotOf : Nat → M33) :
    Nat → Nat → BoneState → (Nat → BoneState) → (Nat → BoneState)
  | 0, _, _, bones => bones
  | fuel + 1, i, parent, bones =>
    let limb := limbs.getD i default
    let me := bonePoseOf limbs rotOf parent i
    let b1 := Function.update bones i me
    let b2 := if limb.child ≠ 255
      then computeBoneRecurse limbs rotOf fuel limb.child me b1 else b1
    if limb.sibling ≠ 255
      then computeBoneRecurse limbs rotOf fuel limb.sibling parent b2 else b2

/-- The limb indices visited by `computeBoneRecurse`, in visit order. -/
def visitedLimbs (limbs : List LimbDesc) : Nat → Nat → List Nat
  | 0, _ => []
  | fuel + 1, i =>
    let limb := limbs.getD i default
    i :: ((if limb.child ≠ 255 then visitedLimbs limbs fuel limb.child else []) ++
          (if limb.sibling ≠ 255 then visitedLimbs limbs fuel limb.sibling else []))

/-- Each visited limb paired with its chain of tree ancestors (`anc` is the
accumulated ancestor chain): a child visit extends the chain with the current
limb, a sibling visit keeps the caller's chain unchanged. -/
def visitPaths (limbs : List LimbDesc) : Nat → Nat → List Nat → List (Nat × List Nat)
  | 0, _, _ => []
  | fuel + 1, i, anc =>
    let limb := limbs.getD i default
    (i, anc) ::
      ((if limb.child ≠ 255 then visitPaths limbs fuel limb.child (anc ++ [i]) else []) ++
       (if limb.sibling ≠ 255 then visitPaths limbs fuel limb.sibling anc else []))

/-- Fold `bonePoseOf` along a chain of limb indices: the pose obtained by
descending from `p0` through the listed limbs. -/
def pathPose (limbs : List LimbDesc) (rotOf : Nat → M33)
    (p0 : BoneState) (path : List Nat) : BoneState :=
  path.foldl (bonePoseOf limbs rotOf) p0

-- ── C1 helper lemmas ─────────────────────────────────────────────────────

theorem visitPaths_map_fst (limbs : List LimbDesc) (fuel : Nat) :
    ∀ (i : Nat) (anc : List Nat),
      (visitPaths limbs fuel i anc).map Prod.fst = visitedLimbs limbs fuel i := by
  induction fuel with
  | zero => intro i anc; rfl
  | succ fuel ih =>
    intro i anc
    simp only [visitPaths, visitedLimbs, List.map_cons, List.map_append]
    congr 1
    congr 1 <;> split <;> simp [ih]

theorem visitPaths_shift (limbs : List LimbDesc) (fuel : Nat) :
    ∀ (i : Nat) (anc : List Nat),
      visitPaths limbs fuel i anc =
        (visitPaths limbs fuel i []).map (fun jp => (jp.1, anc ++ jp.2)) := by
  induction fuel with
  | zero => intro i anc; rfl
  | succ fuel ih =>
    intro i anc
    simp only [visitPaths, List.map_cons, List.map_append, List.nil_append,
      List.append_nil]
    congr 1
    congr 1
    · split
      · rw [ih _ (anc ++ [i]), ih _ [i], List.map_map]
        simp [Function.comp_def, List.append_assoc]
      · simp
    · split
      · exact ih _ anc
      · simp

theorem computeBoneRecurse_notMem (limbs : List LimbDesc) (rotOf : Nat → M33)
    (fuel : Nat) :
    ∀ (i : Nat) (parent : BoneState) (bones : Nat → BoneState) (j : Nat),
      j ∉ visitedLimbs limbs fuel i →
      computeBoneRecurse limbs rotOf fuel i parent bones j = bones j := by
  induction fuel with
  | zero => intros; rfl
  | succ fuel ih =>
    intro i parent bones j hj
    simp only [visitedLimbs, List.mem_cons, List.mem_append] at hj
    push_neg at hj
    obtain ⟨hji, hjc, hjs⟩ := hj
    simp only [computeBoneRecurse]
    split
    next hs =>
      rw [if_pos hs] at hjs
      rw [ih _ _ _ _ hjs]
      split
      next hc =>
        rw [if_pos hc] at hjc
        rw [ih _ _ _ _ hjc]
        exact Function.update_noteq hji _ _
      next _ => exact Function.update_noteq hji _ _
    next _ =>
      split
      next hc =>
        rw [if_pos hc] at hjc
        rw [ih _ _ _ _ hjc]
        exact Function.update_noteq hji _ _
      next _ => exact Function.update_noteq hji _ _

theorem computeBoneRecurse_succ (limbs : List LimbDesc) (rotOf : Nat → M33)
    (fuel i : Nat) (parent : BoneState) (bones : Nat → BoneState) :
    computeBoneRecurse limbs rotOf (fuel + 1) i parent bones =
      (if (limbs.getD i default).sibling ≠ 255
       then computeBoneRecurse limbs rotOf fuel (limbs.getD i default).sibling parent
              (if (limbs.getD i default).child ≠ 255
               then computeBoneRecurse limbs rotOf fuel (limbs.getD i default).child
                      (bonePoseOf limbs rotOf parent i)
                      (Function.update bones i (bonePoseOf limbs rotOf parent i))
               else Function.update bones i (bonePoseOf limbs rotOf parent i))
       else (if (limbs.getD i default).child ≠ 255
             then computeBoneRecurse limbs rotOf fuel (limbs.getD i default).child
                    (bonePoseOf limbs rotOf parent i)
                    (Function.update bones i (bonePoseOf limbs rotOf parent i))
             else Function.update bones i (bonePoseOf limbs rotOf parent i))) := rfl

theorem computeBoneRecurse_pathPose (limbs : List LimbDesc) (rotOf : Nat → M33)
    (fuel : Nat) :
    ∀ (i : Nat) (parent : BoneState) (bones : Nat → BoneState)
      (j : Nat) (q : List Nat),
      (visitedLimbs limbs fuel i).Nodup →
      (j, q) ∈ visitPaths limbs fuel i [] →
      computeBoneRecurse limbs rotOf fuel i parent bones j =
        pathPose limbs rotOf parent (q ++ [j]) := by
  induction fuel with
  | zero => intro i parent bones j q _ h; exact absurd h (List.not_mem_nil _)
  | succ fuel ih =>
    intro i parent bones j q hnd hmem
    simp only [visitedLimbs, List.nodup_cons, List.mem_append,
      List.nodup_append] at hnd
    push_neg at hnd
    obtain ⟨⟨hiA, hiB⟩, hA, hB, hAB⟩ := hnd
    simp only [visitPaths, List.mem_cons, List.mem_append,
      List.nil_append] at hmem
    rw [computeBoneRecurse_succ]
    rcases hmem with heq | hc | hsib
    · rw [Prod.mk.injEq] at heq
      obtain ⟨hj, hq⟩ := heq
      subst hq
      rw [hj]
      by_cases hcs : (limbs.getD i default).sibling ≠ 255
      · rw [if_pos hcs]
        rw [if_pos hcs] at hiB
        rw [computeBoneRecurse_notMem limbs rotOf fuel _ _ _ _ hiB]
        by_cases hcc : (limbs.getD i default).child ≠ 255
        · rw [if_pos hcc]
          rw [if_pos hcc] at hiA
          rw [computeBoneRecurse_notMem limbs rotOf fuel _ _ _ _ hiA]
          rw [Function.update_same]
          rfl
        · rw [if_neg hcc]
          rw [Function.update_same]
          rfl
      · rw [if_neg hcs]
        by_cases hcc : (limbs.getD i default).child ≠ 255
        · rw [if_pos hcc]
          rw [if_pos hcc] at hiA
          rw [computeBoneRecurse_notMem limbs rotOf fuel _ _ _ _ hiA]
          rw [Function.update_same]
          rfl
        · rw [if_neg hcc]
          rw [Function.update_same]
          rfl
    · by_cases hcc : (limbs.getD i default).child ≠ 255
      · rw [if_pos hcc] at hc hA
        rw [visitPaths_shift limbs fuel _ [i]] at hc
        simp only [List.mem_map] at hc
        obtain ⟨⟨j', q'⟩, hmem', heq⟩ := hc
        rw [Prod.mk.injEq] at heq
        obtain ⟨hj, hq⟩ := heq
        subst hj; subst hq
        have hjA : j' ∈ visitedLimbs limbs fuel (limbs.getD i default).child := by
          rw [← visitPaths_map_fst limbs fuel _ ([] : List Nat)]
          exact List.mem_map_of_mem Prod.fst hmem'
        by_cases hcs : (limbs.getD i default).sibling ≠ 255
        · rw [if_pos hcs]
          rw [if_pos hcs] at hAB
          rw [if_pos hcc] at hAB
          have hjB : j' ∉ visitedLimbs limbs fuel (limbs.getD i default).sibling :=
            hAB hjA
          rw [computeBoneRecurse_notMem limbs rotOf fuel _ _ _ _ hjB]
          rw [if_pos hcc]
          rw [ih _ _ _ _ _ hA hmem']
          rfl
        · rw [if_neg hcs, if_pos hcc]
          rw [ih _ _ _ _ _ hA hmem']
          rfl
      · rw [if_neg hcc] at hc
        exact absurd hc (List.not_mem_nil _)
    · by_cases hcs : (limbs.getD i default).sibling ≠ 255
      · rw [if_pos hcs] at hsib hB
        rw [if_pos hcs]
        exact ih _ _ _ _ _ hB hsib
      · rw [if_neg hcs] at hsib
        exact absurd hsib (List.not_mem_nil _)

/-- Identity rotation in raw 4.12 fixed point (1.0 = 4096 on the diagonal). -/
def m33Id : M33 := ⟨4096, 0, 0, 0, 4096, 0, 0, 0, 4096⟩

/-- A tiny three-limb skeleton used to exercise the bone recursion: limb 0 has
child 1; limb 1 has sibling 2; limb 2 has no links. -/
def c1Limbs : List LimbDesc :=
  [⟨1, 2, 3, 1, 255, 0, 0⟩, ⟨4, 5, 6, 255, 2, 0, 0⟩, ⟨7, 8, 9, 255, 255, 0, 0⟩]

/-- A constant keyframe-rotation assignment (identity for every limb). -/
def c1Rot : Nat → M33 := fun _ => m33Id

/-- A concrete starting parent pose. -/
def c1Parent : BoneState := ⟨m33Id, 10, 20, 30⟩

/-- A concrete initial bone array. -/
def c1Bones : Nat → BoneState := fun _ => ⟨m33Id, 0, 0, 0⟩

/-- C1: the bone-pose recursion `RoomScene::computeBoneRecurse` visits a
limb's child passing the limb's own just-computed pose (world rotation =
parent rotation × keyframe rotation, world translation = parent translation +
parent rotation applied to the joint offset with a truncating 12-bit right
shift) and visits the sibling passing the unchanged parent pose (first
conjunct, the literal recursion step); consequently, when the traversal
visits each limb at most once, every visited limb's world transform equals
the fold of the pose step over exactly its chain of ancestors in the
child/sibling tree (second conjunct). -/
theorem c1_bone_pose_recursion (limbs : List LimbDesc) (rotOf : Nat → M33)
    (fuel i : Nat) (parent : BoneState) (bones : Nat → BoneState)
    (hnd : (visitedLimbs limbs (fuel + 1) i).Nodup) :
    (computeBoneRecurse limbs rotOf (fuel + 1) i parent bones =
      (if (limbs.getD i default).sibling ≠ 255
       then computeBoneRecurse limbs rotOf fuel (limbs.getD i default).sibling parent
              (if (limbs.getD i default).child ≠ 255
               then computeBoneRecurse limbs rotOf fuel (limbs.getD i default).child
                      (bonePoseOf limbs rotOf parent i)
                      (Function.update bones i (bonePoseOf limbs rotOf parent i))
               else Function.update bones i (bonePoseOf limbs rotOf parent i))
       else (if (limbs.getD i default).child ≠ 255
             then computeBoneRecurse limbs rotOf fuel (limbs.getD i default).child
                    (bonePoseOf limbs rotOf parent i)
                    (Function.update bones i (bonePoseOf limbs rotOf parent i))
             else Function.update bones i (bonePoseOf limbs rotOf parent i)))) ∧
    (∀ j q, (j, q) ∈ visitPaths limbs (fuel + 1) i [] →
      computeBoneRecurse limbs rotOf (fuel + 1) i parent bones j =
        pathPose limbs rotOf parent (q ++ [j])) :=
  ⟨computeBoneRecurse_succ limbs rotOf fuel i parent bones,
   fun j q hm =>
     computeBoneRecurse_pathPose limbs rotOf (fuel + 1) i parent bones j q hnd hm⟩

/-- Witness for C1 on the concrete three-limb skeleton: limb 1 (the child of
limb 0) ends with the pose obtained by folding the pose step over the path
[0, 1]. -/
theorem c1_bone_pose_recursion_witness :
    (visitedLimbs c1Limbs 3 0).Nodup ∧
    computeBoneRecurse c1Limbs c1Rot 3 0 c1Parent c1Bones 1 =
      pathPose c1Limbs c1Rot c1Parent [0, 1] :=
  ⟨by decide,
   (c1_bone_pose_recursion c1Limbs c1Rot 2 0 c1Parent c1Bones (by decide)).2
     1 [0] (by decide)⟩

-- ── Animation frame advance (skeleton.cpp, renderSkeleton) ───────────────

/-- The per-frame animation advance step (`RoomScene::renderSkeleton`,
skeleton.cpp lines 98-104), executed when the animation is not paused:
increment the frame counter by one; if it reached or passed the animation's
`frame_count`, set it to 0 when the loop flag (bit 0 of `flags`) is set and
to `frame_count - 1` otherwise.  `m_animFrame` is a C `int`, modelled as
`Int`; `frame_count` is a `uint16_t` and `flags` a `uint8_t`. -/
def advanceAnimFrame (frame_count : Nat) (flags : Nat) (f : Int) : Int :=
  let f1 := f + 1
  if f1 ≥ (frame_count : Int) then
    (if flags &&& 1 ≠ 0 then 0 else (frame_count : Int) - 1)
  else f1

/-- C3: for an animation with `frame_count = N ≥ 1`, the advance step
increments the counter and then wraps to 0 (loop flag set) or clamps to
`N - 1` (loop flag clear) once the counter reaches or passes `N`; hence a
non-looping animation advanced any number of times from frame `N - 1` stays
at `N - 1`, and a looping animation advanced `N` times from frame 0 returns
to frame 0. -/
theorem c3_anim_advance (N : Nat) (hN : 1 ≤ N) :
    (∀ (flags : Nat) (f : Int),
        advanceAnimFrame N flags f =
          if f + 1 ≥ (N : Int)
          then (if flags &&& 1 ≠ 0 then 0 else (N : Int) - 1)
          else f + 1) ∧
    (∀ flags : Nat, flags &&& 1 = 0 →
      ∀ k : Nat,
        (advanceAnimFrame N flags)^[k] ((N : Int) - 1) = (N : Int) - 1) ∧
    (∀ flags : Nat, flags &&& 1 ≠ 0 →
      (advanceAnimFrame N flags)^[N] 0 = 0) := by
  refine ⟨fun flags f => rfl, fun flags hflag => ?_, fun flags hflag => ?_⟩
  · have hfix : advanceAnimFrame N flags ((N : Int) - 1) = (N : Int) - 1 := by
      simp [advanceAnimFrame, hflag]
    exact fun k => Function.iterate_fixed hfix k
  · obtain ⟨m, rfl⟩ : ∃ m, N = m + 1 := ⟨N - 1, (Nat.succ_pred_eq_of_pos hN).symm⟩
    have hstep : ∀ k : Nat, k < m + 1 →
        (advanceAnimFrame (m + 1) flags)^[k] 0 = (k : Int) := by
      intro k
      induction k with
      | zero => intro _; rfl
      | succ k ihk =>
        intro hk
        rw [Function.iterate_succ_apply', ihk (Nat.lt_of_succ_lt hk)]
        have hlt : ¬((k : Int) + 1 ≥ ((m + 1 : Nat) : Int)) := by
          push_cast
          omega
        simp only [advanceAnimFrame, if_neg hlt]
        push_cast
        ring
    rw [Function.iterate_succ_apply', hstep m (Nat.lt_succ_self m)]
    have hge : ((m : Int) + 1 ≥ ((m + 1 : Nat) : Int)) := by push_cast; omega
    simp only [advanceAnimFrame, if_pos hge, if_pos hflag]

/-- Witness for C3 at `N = 3`. -/
theorem c3_anim_advance_witness :
    1 ≤ 3 ∧
    ((∀ (flags : Nat) (f : Int),
        advanceAnimFrame 3 flags f =
          if f + 1 ≥ (3 : Int)
          then (if flags &&& 1 ≠ 0 then 0 else (3 : Int) - 1)
          else f + 1) ∧
     (∀ flags : Nat, flags &&& 1 = 0 →
       ∀ k : Nat,
         (advanceAnimFrame 3 flags)^[k] ((3 : Int) - 1) = (3 : Int) - 1) ∧
     (∀ flags : Nat, flags &&& 1 ≠ 0 →
       (advanceAnimFrame 3 flags)^[3] 0 = 0)) :=
  ⟨by decide, c3_anim_advance 3 (by decide)⟩

-- ── SKM limb mesh offsets (skm.h) ────────────────────────────────────────

/-- The fields of an SKM blob that the limb-offset computations read: the
header's `mesh_start` and the limb descriptor table (`skm.h`).  `num_limbs`
is the length of the table. -/
structure SkmFile where
  mesh_start : Nat
  limbs : List LimbDesc

/-- Byte size of one limb's mesh block: positions (`nv*8`), colors (`nv*4`),
UVs (`nv*2` rounded up to 4-byte alignment via `& ~3u`) and triangle indices
(`nt*4`) — the accumulation step shared by `SKM::limbPositions` and
`SKM::LimbMeshCache::build` (skm.h lines 106-109 and 191-195). -/
def limbByteSize (l : LimbDesc) : Nat :=
  l.num_verts * 8 + l.num_verts * 4 +
    ((l.num_verts * 2 + 3) &&& 0xFFFFFFFC) + l.num_tris * 4

/-- The linear accumulation loop of `SKM::limbPositions`: total byte size of
the mesh blocks of all limbs before `limbIdx`. -/
def priorLimbBytes : List LimbDesc → Nat → Nat
  | _, 0 => 0
  | [], _ + 1 => 0
  | l :: ls, k + 1 => limbByteSize l + priorLimbBytes ls k

/-- `SKM::limbPositions` (skm.h lines 102-112): byte offset (from the blob
start) of a limb's position array, by linear accumulation over prior limbs. -/
def limbPositionsOff (skm : SkmFile) (limbIdx : Nat) : Nat :=
  skm.mesh_start + priorLimbBytes skm.limbs limbIdx

/-- `SKM::limbColors` (skm.h): positions offset plus `nv * sizeof(Pos)`. -/
def limbColorsOff (skm : SkmFile) (limbIdx : Nat) : Nat :=
  limbPositionsOff skm limbIdx + (skm.limbs.getD limbIdx default).num_verts * 8

/-- `SKM::limbUVs` (skm.h): colors offset plus `nv * sizeof(Color)`. -/
def limbUVsOff (skm : SkmFile) (limbIdx : Nat) : Nat :=
  limbColorsOff skm limbIdx + (skm.limbs.getD limbIdx default).num_verts * 4

/-- `SKM::limbTriangles` (skm.h): UVs offset plus the 4-byte-aligned UV
array size. -/
def limbTrianglesOff (skm : SkmFile) (limbIdx : Nat) : Nat :=
  limbUVsOff skm limbIdx +
    (((skm.limbs.getD limbIdx default).num_verts * 2 + 3) &&& 0xFFFFFFFC)

/-- The fill loop of `SKM::LimbMeshCache::build` (skm.h lines 188-197):
records the running offset for each of the first `count` limbs. -/
def buildCacheGo : List LimbDesc → Nat → Nat → List Nat
  | _, 0, _ => []
  | [], _ + 1, _ => []
  | l :: ls, k + 1, off => off :: buildCacheGo ls k (off + limbByteSize l)

/-- `SKM::LimbMeshCache::build`: the offsets array, filled for
`i < num_limbs && i < 21` starting from offset 0. -/
def cacheOffsets (skm : SkmFile) : List Nat :=
  buildCacheGo skm.limbs (min skm.limbs.length 21) 0

/-- `SKM::LimbMeshCache::positions`: `mesh_start + offsets[limbIdx]`. -/
def cachePositionsOff (skm : SkmFile) (limbIdx : Nat) : Nat :=
  skm.mesh_start + (cacheOffsets skm).getD limbIdx 0

/-- `SKM::LimbMeshCache::colors`: cached positions offset plus `nv * 8`. -/
def cacheColorsOff (skm : SkmFile) (limbIdx : Nat) : Nat :=
  cachePositionsOff skm limbIdx + (skm.limbs.getD limbIdx default).num_verts * 8

/-- `SKM::LimbMeshCache::uvs`: cached colors offset plus `nv * 4`. -/
def cacheUVsOff (skm : SkmFile) (limbIdx : Nat) : Nat :=
  cacheColorsOff skm limbIdx + (skm.limbs.getD limbIdx default).num_verts * 4

/-- `SKM::LimbMeshCache::triangles`: cached UVs offset plus the aligned UV
array size. -/
def cacheTrianglesOff (skm : SkmFile) (limbIdx : Nat) : Nat :=
  cacheUVsOff skm limbIdx +
    (((skm.limbs.getD limbIdx default).num_verts * 2 + 3) &&& 0xFFFFFFFC)

theorem buildCacheGo_getD :
    ∀ (ls : List LimbDesc) (count idx off : Nat),
      idx < count → count ≤ ls.length →
      (buildCacheGo ls count off).getD idx 0 = off + priorLimbBytes ls idx := by
  intro ls
  induction ls with
  | nil =>
    intro count idx off h hlen
    simp only [List.length_nil, Nat.le_zero] at hlen
    subst hlen
    exact absurd h (Nat.not_lt_zero _)
  | cons l ls ih =>
    intro count idx off h hlen
    cases count with
    | zero => exact absurd h (Nat.not_lt_zero _)
    | succ k =>
      cases idx with
      | zero => simp [buildCacheGo, priorLimbBytes]
      | succ idx =>
        simp only [buildCacheGo, List.getD_cons_succ, priorLimbBytes]
        rw [ih k idx _ (Nat.lt_of_succ_lt_succ h)
          (Nat.le_of_succ_le_succ (by simpa using hlen))]
        omega

/-- C2: for a skeleton with at most 21 limbs and any limb index below
`num_limbs`, the cached offsets computed once by `LimbMeshCache::build`
agree with the offsets computed by the linear accumulation of
`SKM::limbPositions`, for all four per-limb arrays. -/
theorem c2_limb_offset_cache (skm : SkmFile) (limbIdx : Nat)
    (h21 : skm.limbs.length ≤ 21) (hidx : limbIdx < skm.limbs.length) :
    cachePositionsOff skm limbIdx = limbPositionsOff skm limbIdx ∧
    cacheColorsOff skm limbIdx = limbColorsOff skm limbIdx ∧
    cacheUVsOff skm limbIdx = limbUVsOff skm limbIdx ∧
    cacheTrianglesOff skm limbIdx = limbTrianglesOff skm limbIdx := by
  have hmin : min skm.limbs.length 21 = skm.limbs.length := Nat.min_eq_left h21
  have hpos : cachePositionsOff skm limbIdx = limbPositionsOff skm limbIdx := by
    unfold cachePositionsOff limbPositionsOff cacheOffsets
    rw [hmin, buildCacheGo_getD skm.limbs skm.limbs.length limbIdx 0 hidx
      (Nat.le_refl _)]
    omega
  refine ⟨hpos, ?_, ?_, ?_⟩
  · unfold cacheColorsOff limbColorsOff
    rw [hpos]
  · unfold cacheUVsOff limbUVsOff cacheColorsOff limbColorsOff
    rw [hpos]
  · unfold cacheTrianglesOff limbTrianglesOff cacheUVsOff limbUVsOff
      cacheColorsOff limbColorsOff
    rw [hpos]

/-- A concrete two-limb skeleton blob for the C2 witness. -/
def c2Skm : SkmFile :=
  ⟨64, [⟨0, 0, 0, 255, 255, 3, 2⟩, ⟨0, 0, 0, 255, 255, 5, 4⟩]⟩

/-- Witness for C2 on a concrete two-limb skeleton at limb index 1. -/
theorem c2_limb_offset_cache_witness :
    (c2Skm.limbs.length ≤ 21 ∧ 1 < c2Skm.limbs.length) ∧
    (cachePositionsOff c2Skm 1 = limbPositionsOff c2Skm 1 ∧
     cacheColorsOff c2Skm 1 = limbColorsOff c2Skm 1 ∧
     cacheUVsOff c2Skm 1 = limbUVsOff c2Skm 1 ∧
     cacheTrianglesOff c2Skm 1 = limbTrianglesOff c2Skm 1) :=
  ⟨⟨by decide, by decide⟩, c2_limb_offset_cache c2Skm 1 (by decide) (by decide)⟩

-- ── SKM texture descriptors (skm.h) ──────────────────────────────────────

/-- `SKM::TexDesc` (skm.h): texture descriptor.  `format` is 0 for 4-bit
indexed and 1 for 8-bit indexed; `num_clut_colors` is a `uint8_t` palette
size whose comment in the source reads `0 means 256`. -/
structure TexDesc where
  width : Nat
  height : Nat
  format : Nat
  num_clut_colors : Nat
  reserved : Nat
  data_offset : Nat
deriving DecidableEq

/-- `SKM::texClutCount` (skm.h lines 180-182): the effective CLUT size used
for allocation: 256 when the stored field is zero, the stored value
otherwise. -/
def texClutCount (td : TexDesc) : Nat :=
  if td.num_clut_colors = 0 then 256 else td.num_clut_colors

/-- C5 counterexample: for a 4-bit (`format = 0`) texture descriptor whose
stored palette-size field is zero, the effective CLUT size is 256, not the
16 colors the claim states for the 4-bit format. -/
theorem c5_clut_default_counterexample :
    (⟨32, 32, 0, 0, 0, 0⟩ : TexDesc).format = 0 ∧
    (⟨32, 32, 0, 0, 0, 0⟩ : TexDesc).num_clut_colors = 0 ∧
    texClutCount ⟨32, 32, 0, 0, 0, 0⟩ = 256 ∧ (256 : Nat) ≠ 16 := by
  decide

/-- C5 (amended): for every texture descriptor whose stored palette-size
field is zero, the effective CLUT size defaults to 256 — the 8-bit format's
maximum — regardless of the pixel format. -/
theorem c5_clut_default (td : TexDesc) (h : td.num_clut_colors = 0) :
    texClutCount td = 256 := by
  simp [texClutCount, h]

/-- Witness for C5 (amended) on a concrete descriptor. -/
theorem c5_clut_default_witness :
    (⟨16, 16, 1, 0, 0, 0⟩ : TexDesc).num_clut_colors = 0 ∧
    texClutCount ⟨16, 16, 1, 0, 0, 0⟩ = 256 :=
  ⟨by decide, c5_clut_default ⟨16, 16, 1, 0, 0, 0⟩ (by decide)⟩

-- ── VRAM atlas allocator (vram_alloc.h) ──────────────────────────────────

/-- Modelled from the spec: the page/palette selectors the allocator stores
(`psyqo::PrimPieces::TPageAttr` is third-party library code not present
under `src/`); §4.3 calls them the slot's page selector — here the page X/Y
indices set via `setPageX`/`setPageY` plus the pixel-format choice. -/
structure TPageSel where
  pageX : Int
  pageY : Int
  fmt : Nat
deriving DecidableEq

/-- Modelled from the spec: the palette selector
(`psyqo::PrimPieces::ClutIndex(x, y)`, third-party): its two constructor
arguments. -/
structure ClutSel where
  x : Int
  y : Int
deriving DecidableEq

/-- `VramAlloc::TexInfo`: derived per-slot lookup fields.  `u_off`, `v_off`,
`u_mask`, `v_mask` are `uint8_t`. -/
structure TexInfo where
  tpage : TPageSel
  clut : ClutSel
  u_off : Nat
  v_off : Nat
  u_mask : Nat
  v_mask : Nat
deriving DecidableEq

/-- `VramAlloc::Slot`: placement record (all `int16_t` fields). -/
structure Slot where
  info : TexInfo
  vram_x : Int
  vram_y : Int
  vram_w : Int
  vram_h : Int
  clut_x : Int
  clut_y : Int
  clut_w : Int
deriving DecidableEq

instance : Inhabited Slot :=
  ⟨⟨⟨⟨0, 0, 0⟩, ⟨0, 0⟩, 0, 0, 0, 0⟩, 0, 0, 0, 0, 0, 0, 0⟩⟩

/-- One `alloc` request: `texel_w`, `texel_h`, `num_clut_colors` are
`uint16_t` and `format` is a `uint8_t` (0 = 4-bit, 1 = 8-bit). -/
structure AllocReq where
  texel_w : Nat
  texel_h : Nat
  format : Nat
  num_clut_colors : Nat
deriving DecidableEq

/-- The cursor part of `VramAlloc::Allocator`'s state. -/
structure AllocCursor where
  numSlots : Nat
  texCurX : Int
  texCurY : Int
  texRowH : Int
  clutCurX : Int
  clutCurY : Int
deriving DecidableEq

/-- `VramAlloc::Allocator`: the slot array plus the packing cursors. -/
structure AllocState where
  slots : Nat → Slot
  cur : AllocCursor

def TEX_X0 : Int := 320
def TEX_X1 : Int := 1024
def TEX_Y1 : Int := 496
def CLUT_X1 : Int := 1024
def CLUT_Y0 : Int := 496
def CLUT_Y1 : Int := 512
def MAX_TEXTURES : Nat := 32

/-- `Allocator::reset` (vram_alloc.h lines 46-53). -/
def resetAlloc (st : AllocState) : AllocState :=
  { st with cur := { numSlots := 0, texCurX := TEX_X0, texCurY := 0,
                     texRowH := 0, clutCurX := 0, clutCurY := CLUT_Y0 } }

/-- VRAM pixel width of a request: `texel_w / 4` for 4-bit, `texel_w / 2`
for 8-bit (vram_alloc.h line 62). -/
def vramW (r : AllocReq) : Int :=
  if r.format = 0 then ((r.texel_w / 4 : Nat) : Int) else ((r.texel_w / 2 : Nat) : Int)

/-- VRAM pixel height: `static_cast<int16_t>(texel_h)` (line 63). -/
def vramH (r : AllocReq) : Int := i16 r.texel_h

/-- Page span in VRAM pixels: 64 for 4-bit, 128 for 8-bit (line 70). -/
def pageSpan (r : AllocReq) : Int := if r.format = 0 then 64 else 128

/-- The `fitsCurrent` lambda (lines 72-74): the block placed at `x` stays
inside its page and inside the texture region horizontally.  Cursors are
nonnegative in every reachable state, where `Int.emod` agrees with C `%`. -/
def fitsAt (r : AllocReq) (x : Int) : Prop :=
  x % 64 + vramW r ≤ pageSpan r ∧ x + vramW r ≤ TEX_X1

instance (r : AllocReq) (x : Int) : Decidable (fitsAt r x) := by
  unfold fitsAt; infer_instance

/-- The row-wrap logic (lines 77-88): the updated
`(texCurX, texCurY, texRowH)` cursor, before the vertical bound check. -/
def texCursorStep (r : AllocReq) (cx cy rh : Int) : Int × Int × Int :=
  if ¬ fitsAt r cx then
    (let next := ((cx + 63) / 64) * 64
     if fitsAt r next then (next, cy, rh) else (TEX_X0, cy + rh, 0))
  else (cx, cy, rh)

/-- CLUT width: `static_cast<int16_t>((num_clut_colors + 15) & ~15u)`
(line 97); for values below 2^32 the `& ~15u` clears the low four bits. -/
def clutW (r : AllocReq) : Int := i16 ((((r.num_clut_colors + 15) / 16) * 16 : Nat) : Int)

/-- The CLUT row-filling wrap (lines 98-101): updated `(clutCurX, clutCurY)`. -/
def clutCursorStep (cw cx cy : Int) : Int × Int :=
  if cx + cw > CLUT_X1 then (0, cy + 1) else (cx, cy)

/-- `Allocator::alloc` (vram_alloc.h lines 56-138): place one texture's
pixel block with page-aware strip packing and its CLUT with a row-filling
packer; returns the new state and the returned slot index (`-1` on
failure).  On the failure returns the cursor mutations already made
persist, exactly as in the source. -/
def alloc (st : AllocState) (r : AllocReq) : AllocState × Int :=
  if st.cur.numSlots ≥ MAX_TEXTURES then (st, -1)
  else
    let vw := vramW r
    let vh := vramH r
    let t := texCursorStep r st.cur.texCurX st.cur.texCurY st.cur.texRowH
    let cx1 := t.1
    let cy1 := t.2.1
    let rh1 := t.2.2
    if cy1 + vh > TEX_Y1 then
      ({ st with
          cur := { st.cur with
            texCurX := cx1, texCurY := cy1, texRowH := rh1 } },
       -1)
    else
      let vx := cx1
      let vy := cy1
      let cx2 := cx1 + vw
      let rh2 := if vh > rh1 then vh else rh1
      let cw := clutW r
      let q := clutCursorStep cw st.cur.clutCurX st.cur.clutCurY
      let qx1 := q.1
      let qy1 := q.2
      if qy1 ≥ CLUT_Y1 then
        ({ st with
            cur := { st.cur with
              texCurX := cx2, texCurY := vy, texRowH := rh2,
              clutCurX := qx1, clutCurY := qy1 } },
         -1)
      else
        let slot : Slot :=
          { info := { tpage := { pageX := vx / 64, pageY := vy / 256,
                                 fmt := r.format }
                      clut := { x := qx1 / 16, y := qy1 }
                      u_off := ((if r.format = 0
                                 then (vx % 64) * 4 else (vx % 64) * 2)).toNat
                      v_off := (vy % 256).toNat
                      u_mask := (r.texel_w + 255) % 256
                      v_mask := (r.texel_h + 255) % 256 }
            vram_x := vx, vram_y := vy, vram_w := vw, vram_h := vh
            clut_x := qx1, clut_y := qy1, clut_w := cw }
        ({ slots := Function.update st.slots st.cur.numSlots slot
           cur := { st.cur with
             numSlots := st.cur.numSlots + 1,
             texCurX := cx2, texCurY := vy, texRowH := rh2,
             clutCurX := qx1 + cw, clutCurY := qy1 } },
         (st.cur.numSlots : Int))

/-- Run `reset`-less sequences of `alloc` calls, keeping only the state. -/
def runAllocs (st : AllocState) : List AllocReq → AllocState
  | [] => st
  | r :: rs => runAllocs (alloc st r).1 rs

/-- Run a sequence of `alloc` calls, collecting the returned indices. -/
def runAllocsTrace (st : AllocState) : List AllocReq → AllocState × List Int
  | [] => (st, [])
  | r :: rs =>
    let a := alloc st r
    let rest := runAllocsTrace a.1 rs
    (rest.1, a.2 :: rest.2)

-- ── C4: page-fit invariant of returned slots ─────────────────────────────

/-- The C4 slot property: the pixel block stays inside one texture page
(page-relative offset plus width at most the page span for its format) and
inside the fixed texture region. -/
def slotFitsPage (s : Slot) : Prop :=
  s.vram_x % 64 + s.vram_w ≤ (if s.info.tpage.fmt = 0 then 64 else 128) ∧
  s.vram_x + s.vram_w ≤ TEX_X1 ∧
  s.vram_y + s.vram_h ≤ TEX_Y1

theorem texCursorStep_fits (r : AllocReq) (hw : vramW r ≤ pageSpan r)
    (cx cy rh : Int) :
    (texCursorStep r cx cy rh).1 % 64 + vramW r ≤ pageSpan r ∧
    (texCursorStep r cx cy rh).1 + vramW r ≤ TEX_X1 := by
  have hspan : pageSpan r ≤ 128 := by
    unfold pageSpan; split <;> omega
  have hw0 : 0 ≤ vramW r := by
    unfold vramW; split <;> exact Int.natCast_nonneg _
  unfold texCursorStep
  split
  next hnf =>
    dsimp only
    split
    next hf => simpa [fitsAt] using hf
    next _ =>
      constructor
      · have h320 : (TEX_X0 : Int) % 64 = 0 := by decide
        rw [h320]
        simpa using hw
      · unfold TEX_X0 TEX_X1
        omega
  next hf =>
    rw [not_not] at hf
    simpa [fitsAt] using hf

theorem alloc_preserves_slotFits (st : AllocState) (r : AllocReq)
    (hw : vramW r ≤ pageSpan r)
    (hinv : ∀ i, i < st.cur.numSlots → slotFitsPage (st.slots i)) :
    ∀ i, i < (alloc st r).1.cur.numSlots →
      slotFitsPage ((alloc st r).1.slots i) := by
  by_cases h1 : st.cur.numSlots ≥ MAX_TEXTURES
  · simpa only [alloc, if_pos h1] using hinv
  · by_cases h2 : (texCursorStep r st.cur.texCurX st.cur.texCurY
        st.cur.texRowH).2.1 + vramH r > TEX_Y1
    · simp only [alloc, if_neg h1, if_pos h2]
      exact hinv
    · by_cases h3 : (clutCursorStep (clutW r) st.cur.clutCurX
          st.cur.clutCurY).2 ≥ CLUT_Y1
      · simp only [alloc, if_neg h1, if_pos h3, if_neg h2]
        exact hinv
      · simp only [alloc, if_neg h1, if_neg h2, if_neg h3]
        intro i hi
        rcases Nat.lt_succ_iff_lt_or_eq.mp hi with hlt | heq
        · rw [Function.update_noteq (Nat.ne_of_lt hlt)]
          exact hinv i hlt
        · rw [heq, Function.update_same]
          refine ⟨?_, ?_, ?_⟩
          · exact (texCursorStep_fits r hw st.cur.texCurX st.cur.texCurY
              st.cur.texRowH).1
          · exact (texCursorStep_fits r hw st.cur.texCurX st.cur.texCurY
              st.cur.texRowH).2
          · dsimp only
            omega

/-- C4 (amended): after `reset()` and any sequence of `alloc()` calls in
which every request's VRAM pixel width (`texel_w/4` for 4-bit, `texel_w/2`
for 8-bit) is at most its page span (64 resp. 128 VRAM pixels), every
recorded slot's pixel block lies within one texture page — page-relative
offset plus width at most the span for its format — and within the fixed
texture region (`x + w ≤ 1024`, `y + h ≤ 496`).  Without the width bound
the property fails (see the counterexample). -/
theorem c4_amended_slots_in_page (st0 : AllocState) (reqs : List AllocReq)
    (hw : ∀ r ∈ reqs, vramW r ≤ pageSpan r) :
    ∀ i, i < (runAllocs (resetAlloc st0) reqs).cur.numSlots →
      slotFitsPage ((runAllocs (resetAlloc st0) reqs).slots i) := by
  have main : ∀ (rs : List AllocReq) (st : AllocState),
      (∀ r ∈ rs, vramW r ≤ pageSpan r) →
      (∀ i, i < st.cur.numSlots → slotFitsPage (st.slots i)) →
      ∀ i, i < (runAllocs st rs).cur.numSlots →
        slotFitsPage ((runAllocs st rs).slots i) := by
    intro rs
    induction rs with
    | nil => intro st _ hinv; exact hinv
    | cons r rs ih =>
      intro st hw2 hinv
      exact ih _ (fun x hx => hw2 x (List.mem_cons_of_mem _ hx))
        (alloc_preserves_slotFits st r (hw2 r (List.mem_cons_self _ _)) hinv)
  exact main reqs (resetAlloc st0) hw (fun i hi => absurd hi (Nat.not_lt_zero i))

/-- A concrete allocator state (arbitrary cursor garbage; `reset` is applied
before use). -/
def c4InitState : AllocState := ⟨fun _ => default, ⟨0, 0, 0, 0, 0, 0⟩⟩

/-- A 4-bit texture 512 texels wide: its VRAM width of 128 pixels exceeds
the 64-pixel page span of the 4-bit format. -/
def c4BadReq : AllocReq := ⟨512, 16, 0, 0⟩

/-- C4 counterexample: `reset()` followed by one `alloc(512, 16, 4-bit, 0)`
returns the non-negative index 0, yet the recorded slot straddles a page
boundary: its page-relative offset plus width is 128 > 64. -/
theorem c4_counterexample :
    (runAllocsTrace (resetAlloc c4InitState) [c4BadReq]).2 = [0] ∧
    ((runAllocs (resetAlloc c4InitState) [c4BadReq]).slots 0).info.tpage.fmt = 0 ∧
    ¬(((runAllocs (resetAlloc c4InitState) [c4BadReq]).slots 0).vram_x % 64 +
        ((runAllocs (resetAlloc c4InitState) [c4BadReq]).slots 0).vram_w ≤ 64) := by
  decide

/-- A well-sized request: 64-texel-wide 4-bit texture (VRAM width 16). -/
def c4GoodReq : AllocReq := ⟨64, 16, 0, 16⟩

/-- Witness for C4 (amended) on one concrete in-bounds request. -/
theorem c4_amended_slots_in_page_witness :
    (∀ r ∈ [c4GoodReq], vramW r ≤ pageSpan r) ∧
    (∀ i, i < (runAllocs (resetAlloc c4InitState) [c4GoodReq]).cur.numSlots →
      slotFitsPage ((runAllocs (resetAlloc c4InitState) [c4GoodReq]).slots i)) :=
  ⟨by decide, c4_amended_slots_in_page c4InitState [c4GoodReq] (by decide)⟩

-- ── C7: failure behaviour of alloc ───────────────────────────────────────

/-- C7 (amended): the failure behaviour `alloc` actually has: (first
conjunct) every `-1` return leaves the slot table untouched, so a failed
call never hands out a truncated slot; (second conjunct) when the pixel
region is vertically exhausted after the row-wrap logic, `alloc` returns
`-1`; (third conjunct) when the CLUT region is exhausted after its row
wrap, `alloc` returns `-1`.  The original claim's stronger promise — `-1`
whenever the footprint cannot be placed, in particular when the width
exceeds what remains — is false: the row-wrap branch never re-checks
horizontal fit, so an over-wide request is placed across the region edge
with a non-negative index (see the counterexample). -/
theorem c7_alloc_failure (st : AllocState) (r : AllocReq) :
    ((alloc st r).2 = -1 →
      (alloc st r).1.cur.numSlots = st.cur.numSlots ∧
      ∀ i, (alloc st r).1.slots i = st.slots i) ∧
    (st.cur.numSlots < MAX_TEXTURES →
      (texCursorStep r st.cur.texCurX st.cur.texCurY st.cur.texRowH).2.1 +
          vramH r > TEX_Y1 →
      (alloc st r).2 = -1) ∧
    (st.cur.numSlots < MAX_TEXTURES →
      ¬((texCursorStep r st.cur.texCurX st.cur.texCurY st.cur.texRowH).2.1 +
          vramH r > TEX_Y1) →
      (clutCursorStep (clutW r) st.cur.clutCurX st.cur.clutCurY).2 ≥ CLUT_Y1 →
      (alloc st r).2 = -1) := by
  refine ⟨?_, ?_, ?_⟩
  · intro h
    by_cases h1 : st.cur.numSlots ≥ MAX_TEXTURES
    · constructor
      · simp only [alloc, if_pos h1]
      · intro i; simp only [alloc, if_pos h1]
    · by_cases h2 : (texCursorStep r st.cur.texCurX st.cur.texCurY
          st.cur.texRowH).2.1 + vramH r > TEX_Y1
      · constructor
        · simp only [alloc, if_neg h1, if_pos h2]
        · intro i; simp only [alloc, if_neg h1, if_pos h2]
      · by_cases h3 : (clutCursorStep (clutW r) st.cur.clutCurX
            st.cur.clutCurY).2 ≥ CLUT_Y1
        · constructor
          · simp only [alloc, if_neg h1, if_neg h2, if_pos h3]
          · intro i; simp only [alloc, if_neg h1, if_neg h2, if_pos h3]
        · exfalso
          simp only [alloc, if_neg h1, if_neg h2, if_neg h3] at h
          omega
  · intro hcap h2
    have h1 : ¬ st.cur.numSlots ≥ MAX_TEXTURES := not_le.mpr hcap
    simp only [alloc, if_neg h1, if_pos h2]
  · intro hcap h2 h3
    have h1 : ¬ st.cur.numSlots ≥ MAX_TEXTURES := not_le.mpr hcap
    simp only [alloc, if_neg h1, if_neg h2, if_pos h3]

/-- A 4-bit request 3200 texels wide: its VRAM width of 800 pixels exceeds
the entire 704-pixel-wide texture region. -/
def c7WideReq : AllocReq := ⟨3200, 16, 0, 16⟩

/-- C7 counterexample: straight after `reset()`, a request whose VRAM
footprint cannot be placed in the pixel region — its width of 800 VRAM
pixels exceeds the region's full 704-pixel width — is not failed: `alloc`
returns the non-negative index 0 and records a slot whose pixel block runs
from x = 320 to x = 1120, past the region edge `TEX_X1 = 1024`, instead of
returning `-1`. -/
theorem c7_counterexample :
    (runAllocsTrace (resetAlloc c4InitState) [c7WideReq]).2 = [0] ∧
    ((runAllocs (resetAlloc c4InitState) [c7WideReq]).slots 0).vram_x = 320 ∧
    ((runAllocs (resetAlloc c4InitState) [c7WideReq]).slots 0).vram_w = 800 ∧
    ¬(((runAllocs (resetAlloc c4InitState) [c7WideReq]).slots 0).vram_x +
        ((runAllocs (resetAlloc c4InitState) [c7WideReq]).slots 0).vram_w ≤
          TEX_X1) := by
  decide

/-- A request whose 497-pixel height exceeds the 496-pixel-tall texture
region straight after `reset`. -/
def c7FailReq : AllocReq := ⟨16, 497, 0, 16⟩

/-- Witness for C7: after `reset`, allocating a 497-pixel-tall texture
exhausts the region vertically, and `alloc` returns `-1`. -/
theorem c7_alloc_failure_witness :
    ((resetAlloc c4InitState).cur.numSlots < MAX_TEXTURES ∧
     (texCursorStep c7FailReq (resetAlloc c4InitState).cur.texCurX
        (resetAlloc c4InitState).cur.texCurY
        (resetAlloc c4InitState).cur.texRowH).2.1 + vramH c7FailReq > TEX_Y1) ∧
    (alloc (resetAlloc c4InitState) c7FailReq).2 = -1 :=
  ⟨⟨by decide, by decide⟩,
   (c7_alloc_failure (resetAlloc c4InitState) c7FailReq).2.1
     (by decide) (by decide)⟩

-- ── C9: reset + identical alloc sequence is deterministic ────────────────

/-- Two allocator states that agree on everything `alloc` can observe: the
cursors and the recorded slots. -/
def SameAllocator (s t : AllocState) : Prop :=
  s.cur = t.cur ∧ ∀ i, i < s.cur.numSlots → s.slots i = t.slots i

theorem alloc_congr (s t : AllocState) (r : AllocReq)
    (h : SameAllocator s t) :
    (alloc s r).2 = (alloc t r).2 ∧
    SameAllocator (alloc s r).1 (alloc t r).1 := by
  obtain ⟨hc, hs⟩ := h
  by_cases h1 : t.cur.numSlots ≥ MAX_TEXTURES
  · simp only [alloc, hc, if_pos h1]
    exact ⟨trivial, hc, hs⟩
  · by_cases h2 : (texCursorStep r t.cur.texCurX t.cur.texCurY
        t.cur.texRowH).2.1 + vramH r > TEX_Y1
    · simp only [alloc, hc, if_neg h1, if_pos h2]
      refine ⟨trivial, rfl, fun i hi => ?_⟩
      exact hs i (by rw [hc]; exact hi)
    · by_cases h3 : (clutCursorStep (clutW r) t.cur.clutCurX
          t.cur.clutCurY).2 ≥ CLUT_Y1
      · simp only [alloc, hc, if_neg h1, if_neg h2, if_pos h3]
        refine ⟨trivial, rfl, fun i hi => ?_⟩
        exact hs i (by rw [hc]; exact hi)
      · simp only [alloc, hc, if_neg h1, if_neg h2, if_neg h3]
        refine ⟨trivial, rfl, fun i hi => ?_⟩
        dsimp only at hi ⊢
        rcases Nat.lt_succ_iff_lt_or_eq.mp hi with hlt | heq
        · rw [Function.update_noteq (Nat.ne_of_lt hlt),
            Function.update_noteq (Nat.ne_of_lt hlt)]
          exact hs i (by rw [hc]; exact hlt)
        · rw [heq, Function.update_same, Function.update_same]

theorem runAllocsTrace_congr (reqs : List AllocReq) :
    ∀ (s t : AllocState), SameAllocator s t →
      (runAllocsTrace s reqs).2 = (runAllocsTrace t reqs).2 ∧
      SameAllocator (runAllocsTrace s reqs).1 (runAllocsTrace t reqs).1 := by
  induction reqs with
  | nil => intro s t h; exact ⟨rfl, h⟩
  | cons r rs ih =>
    intro s t h
    obtain ⟨h2, hsame⟩ := alloc_congr s t r h
    obtain ⟨ht, hfin⟩ := ih _ _ hsame
    constructor
    · simp only [runAllocsTrace]
      rw [h2, ht]
    · simp only [runAllocsTrace]
      exact hfin

/-- C9: running `reset()` and then the same sequence of `alloc()` calls
from any two starting states produces identical results: the same list of
returned indices, identical final cursors, and identical slot records for
every recorded slot (hence identical pixel-block positions and sizes,
CLUT placements and derived lookup fields). -/
theorem c9_reset_alloc_deterministic (s1 s2 : AllocState)
    (reqs : List AllocReq) :
    (runAllocsTrace (resetAlloc s1) reqs).2 =
      (runAllocsTrace (resetAlloc s2) reqs).2 ∧
    (runAllocsTrace (resetAlloc s1) reqs).1.cur =
      (runAllocsTrace (resetAlloc s2) reqs).1.cur ∧
    ∀ i, i < (runAllocsTrace (resetAlloc s1) reqs).1.cur.numSlots →
      (runAllocsTrace (resetAlloc s1) reqs).1.slots i =
        (runAllocsTrace (resetAlloc s2) reqs).1.slots i := by
  have h0 : SameAllocator (resetAlloc s1) (resetAlloc s2) :=
    ⟨rfl, fun i hi => absurd hi (Nat.not_lt_zero i)⟩
  obtain ⟨ht, hc, hs⟩ := runAllocsTrace_congr reqs (resetAlloc s1)
    (resetAlloc s2) h0
  exact ⟨ht, hc, hs⟩

/-- A second, different starting state for the C9 witness. -/
def c9Other : AllocState := ⟨fun _ => default, ⟨7, 400, 100, 9, 64, 500⟩⟩

/-- Witness for C9 at two concrete distinct starting states and a concrete
request list. -/
theorem c9_reset_alloc_deterministic_witness :
    (runAllocsTrace (resetAlloc c9Other) [c4GoodReq, c4BadReq]).2 =
      (runAllocsTrace (resetAlloc c4InitState) [c4GoodReq, c4BadReq]).2 ∧
    (runAllocsTrace (resetAlloc c9Other) [c4GoodReq, c4BadReq]).1.cur =
      (runAllocsTrace (resetAlloc c4InitState) [c4GoodReq, c4BadReq]).1.cur ∧
    ∀ i, i < (runAllocsTrace (resetAlloc c9Other)
          [c4GoodReq, c4BadReq]).1.cur.numSlots →
      (runAllocsTrace (resetAlloc c9Other) [c4GoodReq, c4BadReq]).1.slots i =
        (runAllocsTrace (resetAlloc c4InitState) [c4GoodReq, c4BadReq]).1.slots i :=
  c9_reset_alloc_deterministic c9Other c4InitState [c4GoodReq, c4BadReq]

-- ── Triangle emission pipeline (main.cpp, room.cpp, skeleton.cpp) ────────

def OT_SIZE : Nat := 1024
def MAX_TRIS : Nat := 1200
def MAIN_MAX_TRIS : Nat := 600
def MAX_VTX : Nat := 256

/-- `ScreenVtx` (scene.h / main.cpp): post-transform screen X/Y (`int16_t`)
and depth (`uint16_t`) stored in the scratch array by `transformVertices`. -/
structure ScreenVtx where
  sx : Int
  sy : Int
  sz : Nat
deriving DecidableEq

/-- A per-vertex UV pair (`PRM::UV` / `SKM::UV`): two `uint8_t` texel
offsets. -/
structure UV where
  u : Nat
  v : Nat
deriving DecidableEq

/-- A triangle record (`SKM::Tri`, and §3's PRM v2 triangle): three local
`uint8_t` vertex indices plus a texture-id byte. -/
structure Tri where
  v0 : Fin 256
  v1 : Fin 256
  v2 : Fin 256
  tex_id : Nat
deriving DecidableEq

/-- The six per-vertex UV bytes written into an emitted primitive. -/
structure UVTriple where
  au : Nat
  av : Nat
  bu : Nat
  bv : Nat
  cu : Nat
  cv : Nat
deriving DecidableEq

/-- One emitted draw record of the static-chunk paths: three screen points,
UVs, page/palette selectors, and the ordering-table index it is inserted
at.  (The three vertex colors are the constant neutral 128 modulation and
are omitted.) -/
structure DrawRec where
  pax : Int
  pay : Int
  pbx : Int
  pby : Int
  pcx : Int
  pcy : Int
  uvt : UVTriple
  tpage : TPageSel
  clut : ClutSel
  otIdx : Int
deriving DecidableEq

/-- The texture-dependent part of a skeletal-limb draw record; it is only
written when the slot guard `tex_id < num_textures && texSlot < numSlots`
holds (skeleton.cpp lines 190-201). -/
structure LimbTexPart where
  uvt : UVTriple
  tpage : TPageSel
  clut : ClutSel
deriving DecidableEq

/-- One emitted draw record of the skeletal-limb path. -/
structure LimbDrawRec where
  pax : Int
  pay : Int
  pbx : Int
  pby : Int
  pcx : Int
  pcy : Int
  texPart : Option LimbTexPart
  otIdx : Int
deriving DecidableEq

/-- The per-triangle body of `RoomScene::renderChunk` in room.cpp (lines
185-233): near-plane reject on any zero depth, screen-space backface cull
(`cross <= 0` rejected), ±512 bounds reject, depth-bucket index from the
depth sum (reject outside `0 < otIdx < OT_SIZE`), then emit with per-vertex
UV = (local UV masked with the slot's wrap mask) + the slot's in-page
offset, truncated to a byte on assignment. -/
def emitTriChunk (scratch : Nat → ScreenVtx) (uvArr : Nat → UV)
    (texInfo : Nat → TexInfo) (idx : Tri) : Option DrawRec :=
  let sv0 := scratch idx.v0.val
  let sv1 := scratch idx.v1.val
  let sv2 := scratch idx.v2.val
  if sv0.sz = 0 ∨ sv1.sz = 0 ∨ sv2.sz = 0 then none
  else
    let dx0 := sv1.sx - sv0.sx
    let dy0 := sv1.sy - sv0.sy
    let dx1 := sv2.sx - sv0.sx
    let dy1 := sv2.sy - sv0.sy
    let cross := dx0 * dy1 - dx1 * dy0
    if cross ≤ 0 then none
    else if sv0.sx < -512 ∨ sv0.sx > 512 ∨ sv0.sy < -512 ∨ sv0.sy > 512 then none
    else if sv1.sx < -512 ∨ sv1.sx > 512 ∨ sv1.sy < -512 ∨ sv1.sy > 512 then none
    else if sv2.sx < -512 ∨ sv2.sx > 512 ∨ sv2.sy < -512 ∨ sv2.sy > 512 then none
    else
      let sumZ : Nat := sv0.sz + sv1.sz + sv2.sz
      let otIdx : Int := ((sumZ * (OT_SIZE / 3)) >>> 12 : Nat)
      if otIdx ≤ 0 ∨ otIdx ≥ (OT_SIZE : Nat) then none
      else
        let ti := texInfo idx.tex_id
        some { pax := sv0.sx, pay := sv0.sy, pbx := sv1.sx, pby := sv1.sy
               pcx := sv2.sx, pcy := sv2.sy
               uvt := { au := (((uvArr idx.v0.val).u &&& ti.u_mask) + ti.u_off) % 256
                        av := (((uvArr idx.v0.val).v &&& ti.v_mask) + ti.v_off) % 256
                        bu := (((uvArr idx.v1.val).u &&& ti.u_mask) + ti.u_off) % 256
                        bv := (((uvArr idx.v1.val).v &&& ti.v_mask) + ti.v_off) % 256
                        cu := (((uvArr idx.v2.val).u &&& ti.u_mask) + ti.u_off) % 256
                        cv := (((uvArr idx.v2.val).v &&& ti.v_mask) + ti.v_off) % 256 }
               tpage := ti.tpage, clut := ti.clut, otIdx := otIdx }

/-- The per-triangle body of `RoomScene::renderChunk` in main.cpp (lines
306-361, the standalone PRM v2 renderer): identical structure, but the
backface cull rejects `cross >= 0` and the per-vertex UV adds the slot
offset to the raw local UV without applying the wrap mask (lines 349-354). -/
def emitTriMain (scratch : Nat → ScreenVtx) (uvArr : Nat → UV)
    (texInfo : Nat → TexInfo) (idx : Tri) : Option DrawRec :=
  let sv0 := scratch idx.v0.val
  let sv1 := scratch idx.v1.val
  let sv2 := scratch idx.v2.val
  if sv0.sz = 0 ∨ sv1.sz = 0 ∨ sv2.sz = 0 then none
  else
    let dx0 := sv1.sx - sv0.sx
    let dy0 := sv1.sy - sv0.sy
    let dx1 := sv2.sx - sv0.sx
    let dy1 := sv2.sy - sv0.sy
    let cross := dx0 * dy1 - dx1 * dy0
    if cross ≥ 0 then none
    else if sv0.sx < -512 ∨ sv0.sx > 512 ∨ sv0.sy < -512 ∨ sv0.sy > 512 then none
    else if sv1.sx < -512 ∨ sv1.sx > 512 ∨ sv1.sy < -512 ∨ sv1.sy > 512 then none
    else if sv2.sx < -512 ∨ sv2.sx > 512 ∨ sv2.sy < -512 ∨ sv2.sy > 512 then none
    else
      let sumZ : Nat := sv0.sz + sv1.sz + sv2.sz
      let otIdx : Int := ((sumZ * (OT_SIZE / 3)) >>> 12 : Nat)
      if otIdx ≤ 0 ∨ otIdx ≥ (OT_SIZE : Nat) then none
      else
        let ti := texInfo idx.tex_id
        some { pax := sv0.sx, pay := sv0.sy, pbx := sv1.sx, pby := sv1.sy
               pcx := sv2.sx, pcy := sv2.sy
               uvt := { au := ((uvArr idx.v0.val).u + ti.u_off) % 256
                        av := ((uvArr idx.v0.val).v + ti.v_off) % 256
                        bu := ((uvArr idx.v1.val).u + ti.u_off) % 256
                        bv := ((uvArr idx.v1.val).v + ti.v_off) % 256
                        cu := ((uvArr idx.v2.val).u + ti.u_off) % 256
                        cv := ((uvArr idx.v2.val).v + ti.v_off) % 256 }
               tpage := ti.tpage, clut := ti.clut, otIdx := otIdx }

/-- The per-triangle body of `RoomScene::drawLimb` (skeleton.cpp lines
155-205): near-plane reject, backface cull rejecting `cross >= 0`, ±512
bounds reject, depth-bucket index; the texture fields are only written when
`tex_id < num_textures && skelTexBase + tex_id < numSlots`, with masked,
offset UVs as in the room chunk path. -/
def emitTriLimb (skelTexBase numTextures numSlots : Nat)
    (scratch : Nat → ScreenVtx) (uvArr : Nat → UV)
    (texInfo : Nat → TexInfo) (idx : Tri) : Option LimbDrawRec :=
  let sv0 := scratch idx.v0.val
  let sv1 := scratch idx.v1.val
  let sv2 := scratch idx.v2.val
  if sv0.sz = 0 ∨ sv1.sz = 0 ∨ sv2.sz = 0 then none
  else
    let dx0 := sv1.sx - sv0.sx
    let dy0 := sv1.sy - sv0.sy
    let dx1 := sv2.sx - sv0.sx
    let dy1 := sv2.sy - sv0.sy
    let cross := dx0 * dy1 - dx1 * dy0
    if cross ≥ 0 then none
    else if sv0.sx < -512 ∨ sv0.sx > 512 ∨ sv0.sy < -512 ∨ sv0.sy > 512 then none
    else if sv1.sx < -512 ∨ sv1.sx > 512 ∨ sv1.sy < -512 ∨ sv1.sy > 512 then none
    else if sv2.sx < -512 ∨ sv2.sx > 512 ∨ sv2.sy < -512 ∨ sv2.sy > 512 then none
    else
      let sumZ : Nat := sv0.sz + sv1.sz + sv2.sz
      let otIdx : Int := ((sumZ * (OT_SIZE / 3)) >>> 12 : Nat)
      if otIdx ≤ 0 ∨ otIdx ≥ (OT_SIZE : Nat) then none
      else
        let texSlot := skelTexBase + idx.tex_id
        some { pax := sv0.sx, pay := sv0.sy, pbx := sv1.sx, pby := sv1.sy
               pcx := sv2.sx, pcy := sv2.sy
               texPart :=
                 if idx.tex_id < numTextures ∧ texSlot < numSlots then
                   let ti := texInfo texSlot
                   some { uvt := { au := (((uvArr idx.v0.val).u &&& ti.u_mask) + ti.u_off) % 256
                                   av := (((uvArr idx.v0.val).v &&& ti.v_mask) + ti.v_off) % 256
                                   bu := (((uvArr idx.v1.val).u &&& ti.u_mask) + ti.u_off) % 256
                                   bv := (((uvArr idx.v1.val).v &&& ti.v_mask) + ti.v_off) % 256
                                   cu := (((uvArr idx.v2.val).u &&& ti.u_mask) + ti.u_off) % 256
                                   cv := (((uvArr idx.v2.val).v &&& ti.v_mask) + ti.v_off) % 256 }
                          tpage := ti.tpage, clut := ti.clut }
                 else none
               otIdx := otIdx }

/-- The chunk emission loop of room.cpp: one iteration per triangle while
the per-frame draw-record budget (`m_triCount < MAX_TRIS`, checked before
each iteration) holds; culled triangles produce nothing and do not consume
budget.  The returned list is both the emitted records and the sequence of
ordering-table insertions (each record is inserted at its `otIdx`). -/
def emitLoopChunk (scratch : Nat → ScreenVtx) (uvArr : Nat → UV)
    (texInfo : Nat → TexInfo) : List Tri → Nat → List DrawRec
  | [], _ => []
  | t :: rest, triCount =>
    if triCount < MAX_TRIS then
      match emitTriChunk scratch uvArr texInfo t with
      | none => emitLoopChunk scratch uvArr texInfo rest triCount
      | some r => r :: emitLoopChunk scratch uvArr texInfo rest (triCount + 1)
    else []

/-- The limb emission loop of skeleton.cpp (lines 155-205), draw-record
budget `MAX_TRIS` as in scene.h. -/
def emitLoopLimb (skelTexBase numTextures numSlots : Nat)
    (scratch : Nat → ScreenVtx) (uvArr : Nat → UV)
    (texInfo : Nat → TexInfo) : List Tri → Nat → List LimbDrawRec
  | [], _ => []
  | t :: rest, triCount =>
    if triCount < MAX_TRIS then
      match emitTriLimb skelTexBase numTextures numSlots scratch uvArr texInfo t with
      | none => emitLoopLimb skelTexBase numTextures numSlots scratch uvArr texInfo rest triCount
      | some r => r :: emitLoopLimb skelTexBase numTextures numSlots scratch uvArr texInfo rest (triCount + 1)
    else []

/-- The chunk emission loop of the standalone main.cpp renderer, budget
`MAX_TRIS = 600` there. -/
def emitLoopMain (scratch : Nat → ScreenVtx) (uvArr : Nat → UV)
    (texInfo : Nat → TexInfo) : List Tri → Nat → List DrawRec
  | [], _ => []
  | t :: rest, triCount =>
    if triCount < MAIN_MAX_TRIS then
      match emitTriMain scratch uvArr texInfo t with
      | none => emitLoopMain scratch uvArr texInfo rest triCount
      | some r => r :: emitLoopMain scratch uvArr texInfo rest (triCount + 1)
    else []

-- ── C8: near-plane reject ────────────────────────────────────────────────

theorem emitTriChunk_sz_zero (scratch : Nat → ScreenVtx) (uvArr : Nat → UV)
    (texInfo : Nat → TexInfo) (idx : Tri)
    (h : (scratch idx.v0.val).sz = 0 ∨ (scratch idx.v1.val).sz = 0 ∨
         (scratch idx.v2.val).sz = 0) :
    emitTriChunk scratch uvArr texInfo idx = none := by
  simp only [emitTriChunk, if_pos h]

theorem emitTriMain_sz_zero (scratch : Nat → ScreenVtx) (uvArr : Nat → UV)
    (texInfo : Nat → TexInfo) (idx : Tri)
    (h : (scratch idx.v0.val).sz = 0 ∨ (scratch idx.v1.val).sz = 0 ∨
         (scratch idx.v2.val).sz = 0) :
    emitTriMain scratch uvArr texInfo idx = none := by
  simp only [emitTriMain, if_pos h]

theorem emitTriLimb_sz_zero (skelTexBase numTextures numSlots : Nat)
    (scratch : Nat → ScreenVtx) (uvArr : Nat → UV)
    (texInfo : Nat → TexInfo) (idx : Tri)
    (h : (scratch idx.v0.val).sz = 0 ∨ (scratch idx.v1.val).sz = 0 ∨
         (scratch idx.v2.val).sz = 0) :
    emitTriLimb skelTexBase numTextures numSlots scratch uvArr texInfo idx = none := by
  simp only [emitTriLimb, if_pos h]

theorem emitLoopChunk_all_rejected (scratch : Nat → ScreenVtx)
    (uvArr : Nat → UV) (texInfo : Nat → TexInfo) :
    ∀ (tris : List Tri) (n : Nat),
      (∀ t ∈ tris, (scratch t.v0.val).sz = 0 ∨ (scratch t.v1.val).sz = 0 ∨
        (scratch t.v2.val).sz = 0) →
      emitLoopChunk scratch uvArr texInfo tris n = [] := by
  intro tris
  induction tris with
  | nil => intro n _; rfl
  | cons t rest ih =>
    intro n hall
    simp only [emitLoopChunk]
    rw [emitTriChunk_sz_zero _ _ _ _ (hall t (List.mem_cons_self _ _))]
    split
    · exact ih n (fun x hx => hall x (List.mem_cons_of_mem _ hx))
    · rfl

theorem emitLoopMain_all_rejected (scratch : Nat → ScreenVtx)
    (uvArr : Nat → UV) (texInfo : Nat → TexInfo) :
    ∀ (tris : List Tri) (n : Nat),
      (∀ t ∈ tris, (scratch t.v0.val).sz = 0 ∨ (scratch t.v1.val).sz = 0 ∨
        (scratch t.v2.val).sz = 0) →
      emitLoopMain scratch uvArr texInfo tris n = [] := by
  intro tris
  induction tris with
  | nil => intro n _; rfl
  | cons t rest ih =>
    intro n hall
    simp only [emitLoopMain]
    rw [emitTriMain_sz_zero _ _ _ _ (hall t (List.mem_cons_self _ _))]
    split
    · exact ih n (fun x hx => hall x (List.mem_cons_of_mem _ hx))
    · rfl

theorem emitLoopLimb_all_rejected (skelTexBase numTextures numSlots : Nat)
    (scratch : Nat → ScreenVtx) (uvArr : Nat → UV) (texInfo : Nat → TexInfo) :
    ∀ (tris : List Tri) (n : Nat),
      (∀ t ∈ tris, (scratch t.v0.val).sz = 0 ∨ (scratch t.v1.val).sz = 0 ∨
        (scratch t.v2.val).sz = 0) →
      emitLoopLimb skelTexBase numTextures numSlots scratch uvArr texInfo tris n = [] := by
  intro tris
  induction tris with
  | nil => intro n _; rfl
  | cons t rest ih =>
    intro n hall
    simp only [emitLoopLimb]
    rw [emitTriLimb_sz_zero _ _ _ _ _ _ _ (hall t (List.mem_cons_self _ _))]
    split
    · exact ih n (fun x hx => hall x (List.mem_cons_of_mem _ hx))
    · rfl

/-- C8: a triangle referencing any vertex whose stored post-transform depth
is 0 is rejected by every emission path — it produces no draw record and no
depth-bucket insertion (first conjunct, per triangle, for the room-chunk,
standalone-chunk and skeletal-limb paths); consequently a triangle list in
which every triangle has such a vertex (in particular all three vertices at
depth 0) emits zero draw records (second conjunct). -/
theorem c8_near_plane_reject :
    (∀ (scratch : Nat → ScreenVtx) (uvArr : Nat → UV)
       (texInfo : Nat → TexInfo) (idx : Tri),
      (scratch idx.v0.val).sz = 0 ∨ (scratch idx.v1.val).sz = 0 ∨
        (scratch idx.v2.val).sz = 0 →
      emitTriChunk scratch uvArr texInfo idx = none ∧
      emitTriMain scratch uvArr texInfo idx = none ∧
      (∀ base ntex nslots : Nat,
        emitTriLimb base ntex nslots scratch uvArr texInfo idx = none)) ∧
    (∀ (scratch : Nat → ScreenVtx) (uvArr : Nat → UV)
       (texInfo : Nat → TexInfo) (tris : List Tri) (n : Nat),
      (∀ t ∈ tris, (scratch t.v0.val).sz = 0 ∨ (scratch t.v1.val).sz = 0 ∨
        (scratch t.v2.val).sz = 0) →
      emitLoopChunk scratch uvArr texInfo tris n = [] ∧
      emitLoopMain scratch uvArr texInfo tris n = [] ∧
      (∀ base ntex nslots : Nat,
        emitLoopLimb base ntex nslots scratch uvArr texInfo tris n = [])) := by
  constructor
  · intro scratch uvArr texInfo idx h
    exact ⟨emitTriChunk_sz_zero scratch uvArr texInfo idx h,
           emitTriMain_sz_zero scratch uvArr texInfo idx h,
           fun base ntex nslots =>
             emitTriLimb_sz_zero base ntex nslots scratch uvArr texInfo idx h⟩
  · intro scratch uvArr texInfo tris n hall
    exact ⟨emitLoopChunk_all_rejected scratch uvArr texInfo tris n hall,
           emitLoopMain_all_rejected scratch uvArr texInfo tris n hall,
           fun base ntex nslots =>
             emitLoopLimb_all_rejected base ntex nslots scratch uvArr texInfo tris n hall⟩

/-- All-zero scratch buffer: every vertex at depth 0. -/
def c8Scratch : Nat → ScreenVtx := fun _ => ⟨0, 0, 0⟩

/-- Trivial UV and texture-info tables for the C8 witness. -/
def c8UV : Nat → UV := fun _ => ⟨0, 0⟩

def c8TexInfo : Nat → TexInfo := fun _ => ⟨⟨0, 0, 0⟩, ⟨0, 0⟩, 0, 0, 0, 0⟩

def c8Tri : Tri := ⟨0, 1, 2, 0⟩

/-- Witness for C8: a concrete triangle with all three vertices at depth 0
is rejected by all three paths. -/
theorem c8_near_plane_reject_witness :
    ((c8Scratch c8Tri.v0.val).sz = 0 ∨ (c8Scratch c8Tri.v1.val).sz = 0 ∨
      (c8Scratch c8Tri.v2.val).sz = 0) ∧
    (emitTriChunk c8Scratch c8UV c8TexInfo c8Tri = none ∧
     emitTriMain c8Scratch c8UV c8TexInfo c8Tri = none ∧
     (∀ base ntex nslots : Nat,
       emitTriLimb base ntex nslots c8Scratch c8UV c8TexInfo c8Tri = none)) :=
  ⟨by decide, c8_near_plane_reject.1 c8Scratch c8UV c8TexInfo c8Tri (by decide)⟩

-- ── C6: per-vertex UV resolution ─────────────────────────────────────────

/-- C6 (amended): in the scene-based static-chunk path (room.cpp) every
emitted triangle's per-vertex UVs equal the stored local UV masked with the
texture slot's wrap mask and then offset by the slot's in-page pixel offset
(modulo the byte width of the stored field); the skeletal-limb path
produces the same masked-and-offset UVs whenever its texture-slot guard
(`tex_id < num_textures` and `skelTexBase + tex_id < numSlots`) holds.
The standalone main.cpp chunk path, by contrast, omits the mask (see the
counterexample). -/
theorem c6_uv_mask_amended :
    (∀ (scratch : Nat → ScreenVtx) (uvArr : Nat → UV)
       (texInfo : Nat → TexInfo) (idx : Tri) (r : DrawRec),
      emitTriChunk scratch uvArr texInfo idx = some r →
      r.uvt =
        { au := (((uvArr idx.v0.val).u &&& (texInfo idx.tex_id).u_mask) +
                  (texInfo idx.tex_id).u_off) % 256
          av := (((uvArr idx.v0.val).v &&& (texInfo idx.tex_id).v_mask) +
                  (texInfo idx.tex_id).v_off) % 256
          bu := (((uvArr idx.v1.val).u &&& (texInfo idx.tex_id).u_mask) +
                  (texInfo idx.tex_id).u_off) % 256
          bv := (((uvArr idx.v1.val).v &&& (texInfo idx.tex_id).v_mask) +
                  (texInfo idx.tex_id).v_off) % 256
          cu := (((uvArr idx.v2.val).u &&& (texInfo idx.tex_id).u_mask) +
                  (texInfo idx.tex_id).u_off) % 256
          cv := (((uvArr idx.v2.val).v &&& (texInfo idx.tex_id).v_mask) +
                  (texInfo idx.tex_id).v_off) % 256 }) ∧
    (∀ (base ntex nslots : Nat) (scratch : Nat → ScreenVtx)
       (uvArr : Nat → UV) (texInfo : Nat → TexInfo) (idx : Tri)
       (r : LimbDrawRec) (tp : LimbTexPart),
      emitTriLimb base ntex nslots scratch uvArr texInfo idx = some r →
      r.texPart = some tp →
      idx.tex_id < ntex ∧ base + idx.tex_id < nslots ∧
      tp.uvt =
        { au := (((uvArr idx.v0.val).u &&& (texInfo (base + idx.tex_id)).u_mask) +
                  (texInfo (base + idx.tex_id)).u_off) % 256
          av := (((uvArr idx.v0.val).v &&& (texInfo (base + idx.tex_id)).v_mask) +
                  (texInfo (base + idx.tex_id)).v_off) % 256
          bu := (((uvArr idx.v1.val).u &&& (texInfo (base + idx.tex_id)).u_mask) +
                  (texInfo (base + idx.tex_id)).u_off) % 256
          bv := (((uvArr idx.v1.val).v &&& (texInfo (base + idx.tex_id)).v_mask) +
                  (texInfo (base + idx.tex_id)).v_off) % 256
          cu := (((uvArr idx.v2.val).u &&& (texInfo (base + idx.tex_id)).u_mask) +
                  (texInfo (base + idx.tex_id)).u_off) % 256
          cv := (((uvArr idx.v2.val).v &&& (texInfo (base + idx.tex_id)).v_mask) +
                  (texInfo (base + idx.tex_id)).v_off) % 256 }) := by
  constructor
  · intro scratch uvArr texInfo idx r h
    simp only [emitTriChunk] at h
    split at h
    next => exact absurd h (by simp)
    next =>
      split at h
      next => exact absurd h (by simp)
      next =>
        split at h
        next => exact absurd h (by simp)
        next =>
          split at h
          next => exact absurd h (by simp)
          next =>
            split at h
            next => exact absurd h (by simp)
            next =>
              split at h
              next => exact absurd h (by simp)
              next =>
                obtain rfl := Option.some.inj h
                rfl
  · intro base ntex nslots scratch uvArr texInfo idx r tp h htp
    simp only [emitTriLimb] at h
    split at h
    next => exact absurd h (by simp)
    next =>
      split at h
      next => exact absurd h (by simp)
      next =>
        split at h
        next => exact absurd h (by simp)
        next =>
          split at h
          next => exact absurd h (by simp)
          next =>
            split at h
            next => exact absurd h (by simp)
            next =>
              split at h
              next => exact absurd h (by simp)
              next =>
                obtain rfl := Option.some.inj h
                dsimp only at htp
                split at htp
                next hguard =>
                  obtain rfl := Option.some.inj htp
                  exact ⟨hguard.1, hguard.2, rfl⟩
                next => exact absurd htp (by simp)

/-- Concrete scratch buffer for the C6 counterexample: a front-facing
triangle (for the main.cpp winding) at depth 100 inside screen bounds. -/
def c6Scratch : Nat → ScreenVtx := fun i =>
  if i = 0 then ⟨0, 0, 100⟩ else if i = 1 then ⟨0, 10, 100⟩ else ⟨10, 0, 100⟩

/-- Local UV 255 everywhere. -/
def c6UV : Nat → UV := fun _ => ⟨255, 255⟩

/-- One texture slot of a 16×16 texture (wrap masks 15) at in-page
offset 0. -/
def c6TexInfo : Nat → TexInfo := fun _ => ⟨⟨0, 0, 0⟩, ⟨0, 0⟩, 0, 0, 15, 15⟩

def c6Tri : Tri := ⟨0, 1, 2, 0⟩

/-- C6 counterexample: the standalone main.cpp chunk path emits this
triangle with per-vertex `u = 255` — the raw local UV plus the offset —
whereas the claimed masked formula gives `(255 AND 15) + 0 = 15`; so the
claim's equation fails on the static-chunk emission path of main.cpp. -/
theorem c6_uv_mask_counterexample :
    ((emitTriMain c6Scratch c6UV c6TexInfo c6Tri).map (fun r => r.uvt.au)) =
      some 255 ∧
    (((c6UV c6Tri.v0.val).u &&& (c6TexInfo c6Tri.tex_id).u_mask) +
        (c6TexInfo c6Tri.tex_id).u_off) % 256 = 15 ∧
    (255 : Nat) ≠ 15 := by
  decide

/-- Concrete scratch for the room-chunk winding (`cross > 0` kept). -/
def c6ScratchChunk : Nat → ScreenVtx := fun i =>
  if i = 0 then ⟨0, 0, 100⟩ else if i = 1 then ⟨10, 0, 100⟩ else ⟨0, 10, 100⟩

/-- The record the room-chunk path emits for the witness triangle. -/
def c6Rec : DrawRec :=
  { pax := 0, pay := 0, pbx := 10, pby := 0, pcx := 0, pcy := 10
    uvt := { au := 15, av := 15, bu := 15, bv := 15, cu := 15, cv := 15 }
    tpage := ⟨0, 0, 0⟩, clut := ⟨0, 0⟩, otIdx := 24 }

/-- Witness for C6 (amended) on a concrete emitted triangle of the
room-chunk path. -/
theorem c6_uv_mask_amended_witness :
    emitTriChunk c6ScratchChunk c6UV c6TexInfo c6Tri = some c6Rec ∧
    c6Rec.uvt =
      { au := (((c6UV c6Tri.v0.val).u &&& (c6TexInfo c6Tri.tex_id).u_mask) +
                (c6TexInfo c6Tri.tex_id).u_off) % 256
        av := (((c6UV c6Tri.v0.val).v &&& (c6TexInfo c6Tri.tex_id).v_mask) +
                (c6TexInfo c6Tri.tex_id).v_off) % 256
        bu := (((c6UV c6Tri.v1.val).u &&& (c6TexInfo c6Tri.tex_id).u_mask) +
                (c6TexInfo c6Tri.tex_id).u_off) % 256
        bv := (((c6UV c6Tri.v1.val).v &&& (c6TexInfo c6Tri.tex_id).v_mask) +
                (c6TexInfo c6Tri.tex_id).v_off) % 256
        cu := (((c6UV c6Tri.v2.val).u &&& (c6TexInfo c6Tri.tex_id).u_mask) +
                (c6TexInfo c6Tri.tex_id).u_off) % 256
        cv := (((c6UV c6Tri.v2.val).v &&& (c6TexInfo c6Tri.tex_id).v_mask) +
                (c6TexInfo c6Tri.tex_id).v_off) % 256 } :=
  ⟨by decide,
   c6_uv_mask_amended.1 c6ScratchChunk c6UV c6TexInfo c6Tri c6Rec (by decide)⟩

-- ── C10: scratch-buffer access bounds ────────────────────────────────────

/-- The single-vertex remainder loop of `RoomScene::transformVertices`
(main.cpp lines 278-289, room.cpp lines 159-170): scratch indices written
by `for (; i < count; i++)`. -/
def transformWritesTail (count i : Nat) : List Nat :=
  if i < count then i :: transformWritesTail count (i + 1) else []
termination_by count - i
decreasing_by omega

/-- The three-wide batch loop of `RoomScene::transformVertices` (main.cpp
lines 249-276): scratch indices written by `for (; i + 2 < count; i += 3)`,
followed by the remainder loop. -/
def transformWritesBatch (count i : Nat) : List Nat :=
  if i + 2 < count then
    i :: (i + 1) :: (i + 2) :: transformWritesBatch count (i + 3)
  else transformWritesTail count i
termination_by count - i
decreasing_by omega

/-- All scratch indices written by `transformVertices(pos, count)`. -/
def transformVerticesWrites (count : Nat) : List Nat :=
  transformWritesBatch count 0

theorem transformWritesTail_mem (count : Nat) :
    ∀ (i j : Nat), j ∈ transformWritesTail count i → j < count := by
  have key : ∀ (n i j : Nat), count - i ≤ n →
      j ∈ transformWritesTail count i → j < count := by
    intro n
    induction n with
    | zero =>
      intro i j hle hmem
      rw [transformWritesTail, if_neg (by omega)] at hmem
      cases hmem
    | succ n ihn =>
      intro i j hle hmem
      rw [transformWritesTail] at hmem
      by_cases h : i < count
      · rw [if_pos h] at hmem
        rcases List.mem_cons.mp hmem with rfl | hm
        · exact h
        · exact ihn (i + 1) j (by omega) hm
      · rw [if_neg h] at hmem
        cases hmem
  exact fun i j => key (count - i) i j (Nat.le_refl _)

theorem transformWritesBatch_mem (count : Nat) :
    ∀ (i j : Nat), j ∈ transformWritesBatch count i → j < count := by
  have key : ∀ (n i j : Nat), count - i ≤ n →
      j ∈ transformWritesBatch count i → j < count := by
    intro n
    induction n with
    | zero =>
      intro i j hle hmem
      rw [transformWritesBatch, if_neg (by omega)] at hmem
      exact transformWritesTail_mem count i j hmem
    | succ n ihn =>
      intro i j hle hmem
      rw [transformWritesBatch] at hmem
      by_cases h : i + 2 < count
      · rw [if_pos h] at hmem
        rcases List.mem_cons.mp hmem with rfl | hm
        · omega
        rcases List.mem_cons.mp hm with rfl | hm2
        · omega
        rcases List.mem_cons.mp hm2 with rfl | hm3
        · omega
        · exact ihn (i + 3) j (by omega) hm3
      · rw [if_neg h] at hmem
        exact transformWritesTail_mem count i j hmem
  exact fun i j => key (count - i) i j (Nat.le_refl _)

/-- C10: with `num_verts = count ≤ 256`, every scratch index written by the
batch transform loops of `transformVertices` is below `count` — and so
below the 256-entry scratch array bound — and every scratch index the
triangle emission reads is a `uint8_t` vertex index, hence below 256; the
bound `count ≤ 256` is assumed by the code, not checked. -/
theorem c10_scratch_bounds (count : Nat) (h : count ≤ MAX_VTX) :
    (∀ j ∈ transformVerticesWrites count, j < count ∧ j < MAX_VTX) ∧
    (∀ idx : Tri,
      idx.v0.val < MAX_VTX ∧ idx.v1.val < MAX_VTX ∧ idx.v2.val < MAX_VTX) := by
  constructor
  · intro j hj
    have hc := transformWritesBatch_mem count 0 j hj
    exact ⟨hc, Nat.lt_of_lt_of_le hc h⟩
  · intro idx
    exact ⟨idx.v0.isLt, idx.v1.isLt, idx.v2.isLt⟩

/-- Witness for C10 at `count = 5` (one batch of three plus a two-vertex
remainder). -/
theorem c10_scratch_bounds_witness :
    5 ≤ MAX_VTX ∧
    ((∀ j ∈ transformVerticesWrites 5, j < 5 ∧ j < MAX_VTX) ∧
     (∀ idx : Tri,
       idx.v0.val < MAX_VTX ∧ idx.v1.val < MAX_VTX ∧ idx.v2.val < MAX_VTX)) :=
  ⟨by decide, c10_scratch_bounds 5 (by decide)⟩
